import Mathlib

/-!
Verification of the FBOSS CLI port commands
(`fboss/py/fboss/cli/commands/port.py`) against their natural-language
specification.  The Python source is shallowly embedded below: each
method becomes a Lean function, RPC responses become explicit arguments,
printing becomes a list of structured output lines, dictionaries become
association lists (in insertion order, matching Python dict semantics),
Python `float` arithmetic is modelled by exact rationals, and a Python
runtime error (KeyError / AssertionError / TypeError) is modelled by
`none` / `Option`.
-/

/-- Python dictionary lookup `m[k]` / `k in m`: first binding of the key,
`none` when the key is absent (a bare `m[k]` on `none` is a KeyError). -/
def pyLookup {κ α : Type} [DecidableEq κ] : List (κ × α) → κ → Option α
  | [], _ => none
  | (k', v) :: rest, k => if k' = k then some v else pyLookup rest k

/-- Python dictionary assignment `m[k] = v`: replaces the value in place
when the key is present (keeping its position, as Python dicts do),
otherwise appends the new binding at the end (insertion order). -/
def dictInsert {κ α : Type} [DecidableEq κ] : List (κ × α) → κ → α → List (κ × α)
  | [], k, v => [(k, v)]
  | (k', v') :: rest, k, v =>
      if k' = k then (k, v) :: rest else (k', v') :: dictInsert rest k v

/-- Insert an element into a list sorted by the boolean relation `le`. -/
def insertSorted {α : Type} (le : α → α → Bool) (a : α) : List α → List α
  | [] => [a]
  | b :: bs => if le a b then a :: b :: bs else b :: insertSorted le a bs

/-- Insertion sort by a boolean relation; models Python's `sorted`. -/
def sortBy {α : Type} (le : α → α → Bool) : List α → List α
  | [] => []
  | a :: as => insertSorted le a (sortBy le as)

/-- Python's `range(a, b)` over integers: `[a, a+1, ..., b-1]`. -/
def pyRange (a b : Int) : List Int :=
  (List.range (b - a).toNat).map (fun (i : Nat) => a + (i : Int))

/-- The `transceiverIdx` field of a port status
(thrift `TransceiverIdxThrift`): transceiver id, starting channel, and
the optional explicit channel list (`none` models a thrift field that is
unset; `some []` an explicitly empty list — Python's `if not channels:`
treats both the same). -/
structure TransceiverIdx where
  transceiverId : Nat
  channelId : Int
  channels : Option (List Int)
deriving DecidableEq

/-- A port status entry as returned by the agent's `getPortStatus`
(thrift `PortStatus`): the fields `port.py` reads. -/
structure PortStatus where
  enabled : Bool
  up : Bool
  transceiverIdx : Option TransceiverIdx
deriving DecidableEq

/-- `PortStatusDetailCmd._get_port_channels` (port.py:304-318): derive
the channel list from the port speed and the starting channel.
`speed == 1000` and N/A fall into the one-channel default; 20000 gets
two consecutive channels and 40000 four. -/
def get_port_channels (speed : Int) (start_channel : Int) : List Int :=
  if speed = 20000 then pyRange start_channel (start_channel + 2)
  else if speed = 40000 then pyRange start_channel (start_channel + 4)
  else [start_channel]

/-- The channel list used by `PortStatusDetailCmd._get_channel_detail`
(port.py:320-326): the explicit `transceiverIdx.channels` list when it is
non-empty, otherwise the speed-based derivation (which needs the port's
speed from `self._port_speeds`, whose lookup can fail — KeyError). -/
def channels_used (speeds : List (Nat × Int)) (port : Nat)
    (idx : TransceiverIdx) : Option (List Int) :=
  match idx.channels with
  | some (c :: cs) => some (c :: cs)
  | _ => (pyLookup speeds port).map (fun sp => get_port_channels sp idx.channelId)

/-- The loop of `PortDetailsCmd._convert_bps` (port.py:55-63) over the
factor/unit table; `none` models falling off the table, in which case the
source's `assert` fails (AssertionError).  Python float division is
modelled by exact rational division. -/
def convert_bps_loop : List (Nat × String) → ℚ → ℚ → Option (ℚ × String)
  | [], _, _ => none
  | (factor, unit) :: rest, bps, value =>
      if value < 1000 then some (bps / 10 ^ factor, unit ++ "bps")
      else convert_bps_loop rest bps (value / 1000)

/-- `PortDetailsCmd._convert_bps` (port.py:47-68) with its literal
factor/unit table `[(1, ''), (3, 'K'), (6, 'M'), (9, 'G')]`. -/
def convert_bps (bps : ℚ) : Option (ℚ × String) :=
  convert_bps_loop [(1, ""), (3, "K"), (6, "M"), (9, "G")] bps bps

/-- `PortStatusDetailCmd._mw_to_dbm` (port.py:335-339).  The external
`math.log10` is passed in as a parameter, so the theorem can observe that
the guard keeps it from ever being applied at 0. -/
def mw_to_dbm (log10 : ℚ → ℚ) (mw : ℚ) : ℚ :=
  if mw = 0 then 0 else 10 * log10 mw

/-- One observable effect of a command: an agent RPC state change, the
fixed `time.sleep`, or a console print. -/
inductive AgentEvent where
  | setPortState (port : Nat) (up : Bool)
  | sleep (seconds : Nat)
  | printLine (s : String)
deriving DecidableEq

/-- `PortFlapCmd.flap_ports` (port.py:119-133) as the list of events it
produces, given the agent's `getPortStatus` response (a dict, modelled as
an association list in iteration order — both `for` loops traverse the
same dict, hence the same order). -/
def flap_ports (resp : List (Nat × PortStatus)) : List AgentEvent :=
  (resp.flatMap fun ps =>
    if ps.2.enabled = false then
      [.printLine ("Port " ++ toString ps.1 ++ " is disabled by configuration, cannot flap")]
    else
      [.printLine ("Disabling port " ++ toString ps.1), .setPortState ps.1 false])
  ++ AgentEvent.sleep 1 ::
  (resp.flatMap fun ps =>
    if ps.2.enabled then
      [.printLine ("Enabling port " ++ toString ps.1), .setPortState ps.1 true]
    else [])

/-- `PortSetStatusCmd.set_status` (port.py:143-148) as the list of events
it produces.  Note that the source consults no port status at all: it
prints a notice and issues `setPortState` for every requested port. -/
def set_status (ports : List Nat) (status : Bool) : List AgentEvent :=
  ports.flatMap fun p =>
    [.printLine ((if status then "Enabling" else "Disabling") ++ " port " ++ toString p),
     .setPortState p status]

/-- The fields of a `PortInfoThrift` entry that `PortDetailsCmd.run`
uses to decide which ports to print (the remaining fields only feed the
rendering in `_print_port_details`, which prints unconditionally). -/
structure PortInfo where
  portId : Nat
  operState : Int
deriving DecidableEq

/-- `PortDetailsCmd.run` (port.py:23-45) reduced to its observable port
selection: the list of port ids it prints details for.  When explicit
ports are given they are printed as given; otherwise the
`getAllPortInfo` response is sorted (by the external `utils.port_sort_fn`,
abstracted as the boolean relation `le`) and filtered to ports whose
`operState == 1`. -/
def port_details_printed (le : PortInfo → PortInfo → Bool)
    (ports : List Nat) (resp : List PortInfo) : List Nat :=
  match ports with
  | [] => (((sortBy le resp).filter (fun info => info.operState = 1)).map (fun info => info.portId))
  | _ => ports

/-- Modelled from the spec: the strings produced by `utils.get_status_strs`
(the `fboss.cli.utils` module is not under `src/`).  Spec section 4.2:
admin enabled maps to "Enabled" / "Disabled", link up to "Up" / "Down",
and the three-valued transceiver presence to "Present" / "Absent" / "-". -/
structure StatusStrs where
  admin_status : String
  link_status : String
  present : String
deriving DecidableEq

/-- Modelled from the spec: `utils.get_status_strs(status, qsfp_present)`
per spec section 4.2 (`qsfp_present` is a boolean or Python `None`,
modelled as `Option Bool`). -/
def get_status_strs (st : PortStatus) (qsfp_present : Option Bool) : StatusStrs :=
  { admin_status := if st.enabled then "Enabled" else "Disabled"
    link_status := if st.up then "Up" else "Down"
    present := match qsfp_present with
               | some true => "Present"
               | some false => "Absent"
               | none => "-" }

/-- Vendor block of a thrift `TransceiverInfo` (fields read at
port.py:365-369). -/
structure Vendor where
  name : String
  partNumber : String
  serialNumber : String
  dateCode : String
  rev : String
deriving DecidableEq

/-- Cable block (fields read at port.py:395-408).  A thrift value that is
unset and the value 0 are both falsy in the source's `if` guards, so both
are modelled as 0. -/
structure Cable where
  singleModeKm : Int
  singleMode : Int
  om3 : Int
  om2 : Int
  om1 : Int
  copper : Int
deriving DecidableEq

/-- Settings block (fields read at port.py:373-389); the raw thrift enum
values are carried, their `_VALUES_TO_NAMES` rendering being external. -/
structure Settings where
  cdrTx : Nat
  cdrRx : Nat
  rateSelect : Nat
  rateSelectSetting : Nat
  powerMeasurement : Nat
  powerControl : Nat
deriving DecidableEq

/-- A low/high pair, as in `thresh.temp.alarm.low`. -/
structure Bounds (α : Type) where
  low : α
  high : α
deriving DecidableEq

/-- An alarm/warn pair of bounds, as in `thresh.temp.alarm` /
`thresh.temp.warn`. -/
structure AlarmWarn (α : Type) where
  alarm : Bounds α
  warn : Bounds α
deriving DecidableEq

/-- A sensor reading `s.value` with its optional flag block `s.flags`
(port.py:553-560 guards the flags before use). -/
structure SensorVal where
  value : ℚ
  flags : Option (AlarmWarn Bool)
deriving DecidableEq

/-- The sensor block `info.sensor` (temperature and Vcc). -/
structure Sensor where
  temp : SensorVal
  vcc : SensorVal
deriving DecidableEq

/-- The thresholds block `info.thresholds` (port.py:411-453); only
`txPwr` is guarded by the source, so only it is optional here. -/
structure Thresholds where
  temp : AlarmWarn ℚ
  vcc : AlarmWarn ℚ
  txBias : AlarmWarn ℚ
  txPwr : Option (AlarmWarn ℚ)
  rxPwr : AlarmWarn ℚ
deriving DecidableEq

/-- A per-channel sensor reading: the source reads `value` and `flags`
unguarded for `txBias` and `rxPwr` (port.py:479-528), so `flags` is not
optional here. -/
structure ChannelSensorVal where
  value : ℚ
  flags : AlarmWarn Bool
deriving DecidableEq

/-- The per-channel sensor block `channel.sensors`; only `txPwr` is
guarded by the source (port.py:481, 504). -/
structure ChannelSensors where
  txBias : ChannelSensorVal
  txPwr : Option ChannelSensorVal
  rxPwr : ChannelSensorVal
deriving DecidableEq

/-- One entry of `info.channels`. -/
structure Channel where
  channel : Int
  sensors : ChannelSensors
deriving DecidableEq

/-- A thrift `TransceiverInfo` record, restricted to the fields the
source reads.  An unset `channels` field and an empty list are conflated
as `[]` (both are falsy in the guards at port.py:549 and 582; the
iteration at port.py:563 is only reached through those guards in the
inputs considered here). -/
structure TransceiverInfo where
  port : Option Nat
  present : Bool
  vendor : Option Vendor
  cable : Option Cable
  settings : Option Settings
  sensor : Option Sensor
  thresholds : Option Thresholds
  channels : List Channel
deriving DecidableEq

/-- The placeholder record built by `PortStatusDetailCmd._get_dummy_status`
(port.py:348-350): a fresh `TransceiverInfo()` with only `port` and
`present = False` set. -/
def mkDummyInfo (port : Nat) : TransceiverInfo :=
  { port := some port
    present := false
    vendor := none
    cable := none
    settings := none
    sensor := none
    thresholds := none
    channels := [] }

/-- One console print statement of the detailed status renderer
(`PortStatusDetailCmd`), one constructor per `print` call in the source,
carrying the data that the call formats. -/
inductive Line where
  | portStatus (port : Nat) (admin link present : String)
  | transceiverHeader (port : Option Nat)
  | vendorNamePart (name partNumber : String)
  | vendorSerial (serialNumber : String)
  | vendorDateRev (dateCode rev : String)
  | settingsCdr (tx rx : Nat)
  | settingsRateSelect (v : Nat)
  | settingsOptimisedFor (v : Nat)
  | settingsPowerMeasurement (v : Nat)
  | settingsPowerControl (v : Nat)
  | cableHeader
  | cableSingleModeKm (v : Int)
  | cableSingleMode (v : Int)
  | cableOm3 (v : Int)
  | cableOm2 (v : Int)
  | cableOm1 (v : Int)
  | cableCopper (v : Int)
  | cableEnd
  | threshHeader
  | threshTemp (alow wlow whigh ahigh : ℚ)
  | threshVcc (alow wlow whigh ahigh : ℚ)
  | threshTxBias (alow wlow whigh ahigh : ℚ)
  | threshTxPwrDbm (alow wlow whigh ahigh : ℚ)
  | threshTxPwrMw (alow wlow whigh ahigh : ℚ)
  | threshRxPwrDbm (alow wlow whigh ahigh : ℚ)
  | threshRxPwrMw (alow wlow whigh ahigh : ℚ)
  | flagsHeader
  | tempFlags (alow wlow whigh ahigh : Bool)
  | vccFlags (alow wlow whigh ahigh : Bool)
  | monitoringHeader
  | sensorTempVcc (temp vcc : ℚ)
  | channelPort (channel : Int) (port : Nat) (admin link : String)
  | channelOnly (channel : Int)
  | chTxBias (v : ℚ)
  | chTxPwrDbm (v : ℚ)
  | chTxPwrMw (v : ℚ)
  | chRxPwrDbm (v : ℚ)
  | chRxPwrMw (v : ℚ)
  | chFlagsHeader
  | chTxBiasFlags (alow wlow whigh ahigh : Bool)
  | chTxPwrDbmFlags (alow wlow whigh ahigh : ℚ)
  | chTxPwrMwFlags (alow wlow whigh ahigh : Bool)
  | chRxPwrDbmFlags (alow wlow whigh ahigh : ℚ)
  | chRxPwrMwFlags (alow wlow whigh ahigh : Bool)
deriving DecidableEq

/-- Python booleans are numbers: `_mw_to_dbm` is applied directly to
flag booleans at port.py:507-510 and 519-522. -/
def boolQ (b : Bool) : ℚ := if b then 1 else 0

/-- `PortStatusDetailCmd._print_transceiver_ports` (port.py:353-360):
one line per port in `ch_to_port.values()` (values in insertion order).
The `self._status_resp[port]` lookup is a KeyError when absent. -/
def print_transceiver_ports (statusResp : List (Nat × PortStatus))
    (chToPort : List (Int × Nat)) (info : TransceiverInfo) : Option (List Line) :=
  chToPort.mapM fun p =>
    (pyLookup statusResp p.2).map fun st =>
      let attrs := get_status_strs st (some info.present)
      Line.portStatus p.2 attrs.admin_status attrs.link_status attrs.present

/-- `PortStatusDetailCmd._print_vendor_details` (port.py:362-369). -/
def print_vendor_details (v : Vendor) : List Line :=
  [.vendorNamePart v.name v.partNumber,
   .vendorSerial v.serialNumber,
   .vendorDateRev v.dateCode v.rev]

/-- `PortStatusDetailCmd._print_settings_details` (port.py:371-389). -/
def print_settings_details (s : Settings) : List Line :=
  [.settingsCdr s.cdrTx s.cdrRx,
   .settingsRateSelect s.rateSelect,
   .settingsOptimisedFor s.rateSelectSetting,
   .settingsPowerMeasurement s.powerMeasurement,
   .settingsPowerControl s.powerControl]

/-- `PortStatusDetailCmd._print_cable_details` (port.py:391-409); note
the source renders `singleModeKm % 1000`. -/
def print_cable_details (c : Cable) : List Line :=
  [Line.cableHeader]
  ++ (if c.singleModeKm ≠ 0 then [Line.cableSingleModeKm (c.singleModeKm % 1000)] else [])
  ++ (if c.singleMode ≠ 0 then [Line.cableSingleMode c.singleMode] else [])
  ++ (if c.om3 ≠ 0 then [Line.cableOm3 c.om3] else [])
  ++ (if c.om2 ≠ 0 then [Line.cableOm2 c.om2] else [])
  ++ (if c.om1 ≠ 0 then [Line.cableOm1 c.om1] else [])
  ++ (if c.copper ≠ 0 then [Line.cableCopper c.copper] else [])
  ++ [Line.cableEnd]

/-- `PortStatusDetailCmd._print_thresholds` (port.py:411-453). -/
def print_thresholds (log10 : ℚ → ℚ) (t : Thresholds) : List Line :=
  [Line.threshHeader,
   Line.threshTemp t.temp.alarm.low t.temp.warn.low t.temp.warn.high t.temp.alarm.high,
   Line.threshVcc t.vcc.alarm.low t.vcc.warn.low t.vcc.warn.high t.vcc.alarm.high,
   Line.threshTxBias t.txBias.alarm.low t.txBias.warn.low t.txBias.warn.high t.txBias.alarm.high]
  ++ (match t.txPwr with
      | some p =>
          [Line.threshTxPwrDbm (mw_to_dbm log10 p.alarm.low) (mw_to_dbm log10 p.warn.low)
             (mw_to_dbm log10 p.warn.high) (mw_to_dbm log10 p.alarm.high),
           Line.threshTxPwrMw p.alarm.low p.warn.low p.warn.high p.alarm.high]
      | none => [])
  ++ [Line.threshRxPwrDbm (mw_to_dbm log10 t.rxPwr.alarm.low) (mw_to_dbm log10 t.rxPwr.warn.low)
        (mw_to_dbm log10 t.rxPwr.warn.high) (mw_to_dbm log10 t.rxPwr.alarm.high),
      Line.threshRxPwrMw t.rxPwr.alarm.low t.rxPwr.warn.low t.rxPwr.warn.high t.rxPwr.alarm.high]

/-- `PortStatusDetailCmd._print_sensor_flags` (port.py:455-475); its call
site (port.py:560) guarantees both flag blocks are present, which the
explicit arguments record. -/
def print_sensor_flags (tempFl vccFl : AlarmWarn Bool) : List Line :=
  [Line.flagsHeader,
   Line.tempFlags tempFl.alarm.low tempFl.warn.low tempFl.warn.high tempFl.alarm.high,
   Line.vccFlags vccFl.alarm.low vccFl.warn.low vccFl.warn.high vccFl.alarm.high]

/-- `PortStatusDetailCmd._print_port_channel` (port.py:477-528). -/
def print_port_channel (log10 : ℚ → ℚ) (verbose : Bool) (ch : Channel) : List Line :=
  [Line.chTxBias ch.sensors.txBias.value]
  ++ (match ch.sensors.txPwr with
      | some p => [Line.chTxPwrDbm (mw_to_dbm log10 p.value), Line.chTxPwrMw p.value]
      | none => [])
  ++ [Line.chRxPwrDbm (mw_to_dbm log10 ch.sensors.rxPwr.value),
      Line.chRxPwrMw ch.sensors.rxPwr.value]
  ++ (if verbose = false then [] else
      [Line.chFlagsHeader,
       Line.chTxBiasFlags ch.sensors.txBias.flags.alarm.low ch.sensors.txBias.flags.warn.low
         ch.sensors.txBias.flags.warn.high ch.sensors.txBias.flags.alarm.high]
      ++ (match ch.sensors.txPwr with
          | some p =>
              [Line.chTxPwrDbmFlags (mw_to_dbm log10 (boolQ p.flags.alarm.low))
                 (mw_to_dbm log10 (boolQ p.flags.warn.low))
                 (mw_to_dbm log10 (boolQ p.flags.warn.high))
                 (mw_to_dbm log10 (boolQ p.flags.alarm.high)),
               Line.chTxPwrMwFlags p.flags.alarm.low p.flags.warn.low
                 p.flags.warn.high p.flags.alarm.high]
          | none => [])
      ++ [Line.chRxPwrDbmFlags (mw_to_dbm log10 (boolQ ch.sensors.rxPwr.flags.alarm.low))
            (mw_to_dbm log10 (boolQ ch.sensors.rxPwr.flags.warn.low))
            (mw_to_dbm log10 (boolQ ch.sensors.rxPwr.flags.warn.high))
            (mw_to_dbm log10 (boolQ ch.sensors.rxPwr.flags.alarm.high)),
          Line.chRxPwrMwFlags ch.sensors.rxPwr.flags.alarm.low ch.sensors.rxPwr.flags.warn.low
            ch.sensors.rxPwr.flags.warn.high ch.sensors.rxPwr.flags.alarm.high])

/-- State built by the channel-detail pass: the map
`transceiver_id -> channel_id -> port` (`self._t_to_p`, a defaultdict of
dicts) and the ordered, deduplicated transceiver list
(`self._transceiver`). -/
structure ChannelMaps where
  tToP : List (Nat × List (Int × Nat))
  transceiver : List Nat
deriving DecidableEq

/-- `PortStatusDetailCmd._get_channel_detail` (port.py:320-333) for one
port with a `transceiverIdx`: pick the channel list (explicit or speed
derived, with a possible KeyError on the speed lookup), map each channel
to the port, and record the transceiver id once. -/
def get_channel_detail (speeds : List (Nat × Int)) (port : Nat)
    (idx : TransceiverIdx) (acc : ChannelMaps) : Option ChannelMaps :=
  (channels_used speeds port idx).map fun channels =>
    let tid := idx.transceiverId
    let tmap := (pyLookup acc.tToP tid).getD []
    let tmap := channels.foldl (fun m ch => dictInsert m ch port) tmap
    { tToP := dictInsert acc.tToP tid tmap
      transceiver := if tid ∈ acc.transceiver then acc.transceiver
                     else acc.transceiver ++ [tid] }

/-- The first loop of `PortStatusDetailCmd.get_detail_status`
(port.py:607-609) over the sorted status response. -/
def build_channel_maps (speeds : List (Nat × Int))
    (items : List (Nat × PortStatus)) : Option ChannelMaps :=
  items.foldlM
    (fun (acc : ChannelMaps) (ps : Nat × PortStatus) =>
      match ps.2.transceiverIdx with
      | some idx => get_channel_detail speeds ps.1 idx acc
      | none => some acc)
    { tToP := [], transceiver := [] }

/-- `PortStatusDetailCmd._get_dummy_status` (port.py:341-351): for each
port (in sorted order) whose transceiver id has no record in
`self._info_resp`, store a placeholder record — under the PORT key, as
the source does (`self._info_resp[port] = info`). -/
def get_dummy_status (items : List (Nat × PortStatus))
    (infoResp : List (Nat × TransceiverInfo)) : List (Nat × TransceiverInfo) :=
  items.foldl
    (fun (ir : List (Nat × TransceiverInfo)) (ps : Nat × PortStatus) =>
      match ps.2.transceiverIdx with
      | some idx =>
          if (pyLookup ir idx.transceiverId).isNone
          then dictInsert ir ps.1 (mkDummyInfo ps.1)
          else ir
      | none => ir)
    infoResp

/-- `PortStatusDetailCmd._print_transceiver_details` (port.py:530-583).
The `self._info_resp[tid]` lookup is a KeyError (`none`) when the id has
no record; `self._t_to_p[tid]` is a defaultdict and yields `{}`. -/
def print_transceiver_details (log10 : ℚ → ℚ) (verbose : Bool)
    (statusResp : List (Nat × PortStatus)) (infoResp : List (Nat × TransceiverInfo))
    (tToP : List (Nat × List (Int × Nat))) (tid : Nat) : Option (List Line) :=
  match pyLookup infoResp tid with
  | none => none
  | some info =>
    let chToPort := (pyLookup tToP tid).getD []
    if info.present = false then
      print_transceiver_ports statusResp chToPort info
    else do
      let headLines :=
        [Line.transceiverHeader info.port]
        ++ (match info.vendor with | some v => print_vendor_details v | none => [])
        ++ (match info.cable with | some c => print_cable_details c | none => [])
        ++ (match info.settings with | some s => print_settings_details s | none => [])
        ++ (if info.sensor.isSome || (info.thresholds.isSome && verbose)
              || !info.channels.isEmpty
            then [Line.monitoringHeader] else [])
        ++ (match info.sensor with
            | some s => [Line.sensorTempVcc s.temp.value s.vcc.value]
            | none => [])
        ++ (if verbose then
              match info.thresholds with
              | some t => print_thresholds log10 t
              | none => []
            else [])
        ++ (match verbose, info.sensor with
            | true, some s =>
                match s.temp.flags, s.vcc.flags with
                | some tf, some vf => print_sensor_flags tf vf
                | _, _ => []
            | _, _ => [])
      let chanBlocks ← info.channels.mapM fun ch =>
        match pyLookup chToPort ch.channel with
        | some port =>
            (pyLookup statusResp port).map fun st =>
              let attrs := get_status_strs st none
              Line.channelPort ch.channel port attrs.admin_status attrs.link_status
                :: print_port_channel log10 verbose ch
        | none =>
            some (Line.channelOnly ch.channel :: print_port_channel log10 verbose ch)
      let tailLines ←
        if info.channels.isEmpty then print_transceiver_ports statusResp chToPort info
        else some []
      some (headLines ++ chanBlocks.flatten ++ tailLines)

/-- `PortStatusDetailCmd._print_port_detail` (port.py:585-602).  The
`else` branch of the source indexes `self._info_resp` with the port's
`None` transceiver index, which can never be a key of that int-keyed
dict: a KeyError, modelled as `none`.  `transceiver_printed.append(tid)`
runs whether or not the transceiver was already printed, exactly as in
the source. -/
def print_port_detail (log10 : ℚ → ℚ) (verbose : Bool)
    (items : List (Nat × PortStatus)) (infoResp : List (Nat × TransceiverInfo))
    (tToP : List (Nat × List (Int × Nat))) : Option (List Line) :=
  (items.foldlM
    (fun (acc : List Nat × List Line) (ps : Nat × PortStatus) =>
      match ps.2.transceiverIdx with
      | some idx =>
          let tid := idx.transceiverId
          if tid ∈ acc.1 then some (acc.1 ++ [tid], acc.2)
          else
            (print_transceiver_details log10 verbose items infoResp tToP tid).map
              fun ls => (acc.1 ++ [tid], acc.2 ++ ls)
      | none => none)
    (([], []) : List Nat × List Line)).map Prod.snd

/-- `PortStatusDetailCmd.get_detail_status` (port.py:604-621), taking the
agent's `getPortStatus` response and the outcome of the qsfp client's
`getTransceiverInfo` call (`Except.error ()` models a
`TApplicationException`).  The overall result is the list of printed
lines, or `none` when the command dies with an uncaught Python error. -/
def get_detail_status (log10 : ℚ → ℚ) (verbose : Bool)
    (speeds : List (Nat × Int)) (statusResp : List (Nat × PortStatus))
    (qsfpResp : Except Unit (List (Nat × TransceiverInfo))) : Option (List Line) := do
  let items := sortBy (fun a b => Nat.ble a.1 b.1) statusResp
  let maps ← build_channel_maps speeds items
  if maps.transceiver = [] then some []
  else
    match qsfpResp with
    | .error _ => some []
    | .ok infoResp0 =>
        let infoResp := get_dummy_status items infoResp0
        print_port_detail log10 verbose items infoResp maps.tToP

/-- An enabled, link-up port status on channel 0 of transceiver 0, with
an explicit one-channel list. -/
def examplePortStatus : PortStatus :=
  { enabled := true, up := true
    transceiverIdx := some { transceiverId := 0, channelId := 0, channels := some [0] } }

/-- A port status that configuration marks disabled. -/
def exampleDisabledStatus : PortStatus :=
  { enabled := false, up := false, transceiverIdx := none }

/-- A concrete sort key for `port_details_printed`: ascending port id. -/
def portIdLe (a b : PortInfo) : Bool := Nat.ble a.portId b.portId

theorem mem_insertSorted {α : Type} (le : α → α → Bool) (a x : α) (l : List α) :
    x ∈ insertSorted le a l ↔ x = a ∨ x ∈ l := by
  induction l with
  | nil => simp [insertSorted]
  | cons b bs ih =>
      unfold insertSorted
      split
      · simp [List.mem_cons]
      · simp only [List.mem_cons, ih]
        tauto

theorem mem_sortBy {α : Type} (le : α → α → Bool) (x : α) (l : List α) :
    x ∈ sortBy le l ↔ x ∈ l := by
  induction l with
  | nil => simp [sortBy]
  | cons a as ih => simp [sortBy, mem_insertSorted, ih]

theorem pyRange_add (a : Int) (n : Nat) :
    pyRange a (a + (n : Int)) = (List.range n).map (fun (i : Nat) => a + (i : Int)) := by
  unfold pyRange
  have h : a + (n : Int) - a = (n : Int) := by ring
  rw [h, Int.toNat_natCast]

theorem sorted_map_range_add (a : Int) (n : Nat) :
    List.Sorted (· < ·) ((List.range n).map (fun (i : Nat) => a + (i : Int))) := by
  rw [List.Sorted, List.pairwise_map]
  exact (List.pairwise_lt_range n).imp (fun h => by exact add_lt_add_left (by exact_mod_cast h) a)

theorem pyDict_value_eq {α : Type} {resp : List (Nat × α)}
    (hnodup : (resp.map Prod.fst).Nodup)
    {p : Nat} {st st' : α} (h1 : (p, st) ∈ resp) (h2 : (p, st') ∈ resp) : st = st' := by
  induction resp with
  | nil => cases h1
  | cons hd tl ih =>
      rw [List.map_cons, List.nodup_cons] at hnodup
      rcases List.mem_cons.mp h1 with h1 | h1 <;> rcases List.mem_cons.mp h2 with h2 | h2
      · rw [← h1] at h2
        injection h2 with _ hsnd
        exact hsnd.symm
      · exact absurd (List.mem_map.mpr ⟨(p, st'), h2, by rw [← h1]⟩) hnodup.1
      · exact absurd (List.mem_map.mpr ⟨(p, st), h1, by rw [← h2]⟩) hnodup.1
      · exact ih hnodup.2 h1 h2

/-- C1: for every starting channel index, `_get_port_channels` returns
exactly 2 consecutive channel indices starting at that index when the
speed is 20000, exactly 4 when the speed is 40000, and exactly the single
given index for any other speed (including 0), always in ascending
order. -/
theorem get_port_channels_spec (speed start_channel : Int) :
    get_port_channels speed start_channel
      = (List.range (if speed = 20000 then 2 else if speed = 40000 then 4 else 1)).map
          (fun (i : Nat) => start_channel + (i : Int))
    ∧ List.Sorted (· < ·) (get_port_channels speed start_channel) := by
  have key : get_port_channels speed start_channel
      = (List.range (if speed = 20000 then 2 else if speed = 40000 then 4 else 1)).map
          (fun (i : Nat) => start_channel + (i : Int)) := by
    unfold get_port_channels
    by_cases h20 : speed = 20000
    · rw [if_pos h20, if_pos h20]
      have h2 : (2 : Int) = ((2 : Nat) : Int) := by norm_num
      rw [h2, pyRange_add]
    · rw [if_neg h20, if_neg h20]
      by_cases h40 : speed = 40000
      · rw [if_pos h40, if_pos h40]
        have h4 : (4 : Int) = ((4 : Nat) : Int) := by norm_num
        rw [h4, pyRange_add]
      · rw [if_neg h40, if_neg h40]
        have h1 : List.range 1 = [0] := rfl
        rw [h1]
        simp
  refine ⟨key, ?_⟩
  rw [key]
  exact sorted_map_range_add start_channel _

/-- C2: for every flap request, the event trace splits at the fixed
one-second pause into a prefix containing no enable call and a suffix
containing no disable call — so every setPortState(port, False) is issued
before any setPortState(port, True), regardless of the order of the ports
in the response. -/
theorem flap_disables_all_before_enabling_any (resp : List (Nat × PortStatus)) :
    ∃ pre post, flap_ports resp = pre ++ AgentEvent.sleep 1 :: post
      ∧ (∀ q, AgentEvent.setPortState q true ∉ pre)
      ∧ (∀ q, AgentEvent.setPortState q false ∉ post) := by
  refine ⟨_, _, rfl, fun q hq => ?_, fun q hq => ?_⟩
  · rw [List.mem_flatMap] at hq
    obtain ⟨ps, _, h⟩ := hq
    by_cases he : ps.2.enabled = false
    · rw [if_pos he] at h
      simp at h
    · rw [if_neg he] at h
      simp at h
  · rw [List.mem_flatMap] at hq
    obtain ⟨ps, _, h⟩ := hq
    by_cases he : ps.2.enabled
    · rw [if_pos he] at h
      simp at h
    · rw [if_neg he] at h
      simp at h

/-- C3 counterexample: the set-status operation issues a state-changing
setPortState call for every requested port — here port 5 under an enable
request — without consulting the port configuration at all, so for a
configuration in which port 5 is administratively disabled the claimed
skip does not happen. -/
theorem set_status_issues_call_for_disabled_port :
    AgentEvent.setPortState 5 true ∈ set_status [5] true := by decide

/-- C3 amended: the flap operation skips a port whose agent-reported
status is disabled — it emits the skip notice and issues no setPortState
call for that port — while the set-status operation issues a
setPortState call for every requested port unconditionally. -/
theorem flap_skips_disabled_set_status_does_not
    (resp : List (Nat × PortStatus)) (p : Nat) (st : PortStatus)
    (hnodup : (resp.map Prod.fst).Nodup) (hmem : (p, st) ∈ resp)
    (hdis : st.enabled = false) :
    (∀ b, AgentEvent.setPortState p b ∉ flap_ports resp)
    ∧ AgentEvent.printLine ("Port " ++ toString p ++ " is disabled by configuration, cannot flap")
        ∈ flap_ports resp
    ∧ ∀ (ports : List Nat) (status : Bool) (q : Nat), q ∈ ports →
        AgentEvent.setPortState q status ∈ set_status ports status := by
  refine ⟨?_, ?_, ?_⟩
  · intro b hb
    rcases List.mem_append.mp hb with h | h
    · rw [List.mem_flatMap] at h
      obtain ⟨⟨q, st'⟩, hps, h⟩ := h
      by_cases he : st'.enabled = false
      · rw [if_pos he] at h
        rw [List.mem_singleton] at h
        exact AgentEvent.noConfusion h
      · rw [if_neg he] at h
        rcases List.mem_cons.mp h with h | h
        · exact AgentEvent.noConfusion h
        · rw [List.mem_singleton] at h
          injection h with hq hb2
          subst hq
          exact he (by rw [pyDict_value_eq hnodup hps hmem]; exact hdis)
    · rcases List.mem_cons.mp h with h | h
      · exact AgentEvent.noConfusion h
      · rw [List.mem_flatMap] at h
        obtain ⟨⟨q, st'⟩, hps, h⟩ := h
        by_cases he : st'.enabled = true
        · rw [if_pos he] at h
          rcases List.mem_cons.mp h with h | h
          · exact AgentEvent.noConfusion h
          · rw [List.mem_singleton] at h
            injection h with hq hb2
            subst hq
            rw [pyDict_value_eq hnodup hps hmem, hdis] at he
            exact Bool.noConfusion he
        · rw [if_neg he] at h
          exact List.not_mem_nil _ h
  · refine List.mem_append.mpr (Or.inl ?_)
    refine List.mem_flatMap.mpr ⟨(p, st), hmem, ?_⟩
    rw [if_pos hdis]
    exact List.mem_singleton.mpr rfl
  · intro ports status q hq
    refine List.mem_flatMap.mpr ⟨q, hq, ?_⟩
    simp

/-- C3 witness: the amended theorem applied to the one-port response in
which port 5 is disabled, and to an enable request on port 7. -/
theorem flap_skips_disabled_set_status_does_not_witness :
    AgentEvent.printLine ("Port " ++ toString (5 : Nat) ++ " is disabled by configuration, cannot flap")
      ∈ flap_ports [(5, exampleDisabledStatus)]
    ∧ AgentEvent.setPortState 7 true ∈ set_status [7] true :=
  ⟨(flap_skips_disabled_set_status_does_not [(5, exampleDisabledStatus)] 5 exampleDisabledStatus
      (by decide) (by decide) (by decide)).2.1,
   (flap_skips_disabled_set_status_does_not [(5, exampleDisabledStatus)] 5 exampleDisabledStatus
      (by decide) (by decide) (by decide)).2.2 [7] true 7 (by decide)⟩

/-- C5: evaluation of the bits-per-second formatter at the four inputs
the claim lists.  Three agree with the claim; at 999 the code divides by
10^1 (the first table entry is the pair of 1 and the empty unit) and so
returns the pair of 99.9 and "bps", not the claimed 999.0 — the slip in
the table is the deviation of the no-unit factor from the K/M/G pattern
of decimal exponents 3/6/9. -/
theorem convert_bps_examples :
    convert_bps (10 ^ 9) = some (1, "Gbps")
    ∧ convert_bps 500000 = some (500, "Kbps")
    ∧ convert_bps (10 ^ 6) = some (1, "Mbps")
    ∧ convert_bps 999 = some (999 / 10, "bps")
    ∧ (999 : ℚ) / 10 ≠ 999 := by
  refine ⟨?_, ?_, ?_, ?_, by norm_num⟩
  · norm_num [convert_bps, convert_bps_loop]
    rfl
  · norm_num [convert_bps, convert_bps_loop]
    rfl
  · norm_num [convert_bps, convert_bps_loop]
    rfl
  · norm_num [convert_bps, convert_bps_loop]

/-- C6 counterexample: at 10^12 bps every unit in the table leaves the
scaled value at or above 1000, the loop falls off the table, and the
assertion in the source fails — the function raises instead of returning
a result, refuting the claim for this non-negative input. -/
theorem convert_bps_terabit_asserts : convert_bps (10 ^ 12) = none := by
  norm_num [convert_bps, convert_bps_loop]

/-- C6 amended: the speed-rendering path returns a result for every
non-negative bps value strictly below 10^12; at and above 10^12 the
assertion in the source fails. -/
theorem convert_bps_total_below_terabit (bps : ℚ)
    (_h0 : 0 ≤ bps) (h1 : bps < 10 ^ 12) :
    (convert_bps bps).isSome = true := by
  unfold convert_bps
  simp only [convert_bps_loop]
  split_ifs with a b c d <;> simp
  exact absurd (by rw [div_div, div_div, div_lt_iff₀ (by norm_num)]; linarith) d

/-- C6 witness: the amended theorem applied at 999 bps. -/
theorem convert_bps_total_below_terabit_witness :
    (0 : ℚ) ≤ 999 ∧ (999 : ℚ) < 10 ^ 12 ∧ (convert_bps 999).isSome = true :=
  ⟨by norm_num, by norm_num,
   convert_bps_total_below_terabit 999 (by norm_num) (by norm_num)⟩

/-- C10: the milliwatt-to-dBm conversion is total: at 0 it returns 0
without consulting the external log10 at all (the result is the same for
any two log10 functions), and at every positive input it returns
10 * log10(input). -/
theorem mw_to_dbm_total_guarded (f g : ℚ → ℚ) (mw : ℚ) :
    mw_to_dbm f 0 = 0
    ∧ mw_to_dbm f 0 = mw_to_dbm g 0
    ∧ (0 < mw → mw_to_dbm f mw = 10 * f mw) := by
  refine ⟨by simp [mw_to_dbm], by simp [mw_to_dbm], fun h => ?_⟩
  unfold mw_to_dbm
  rw [if_neg (by intro h0; rw [h0] at h; exact lt_irrefl 0 h)]

/-- C10 witness: the theorem applied at 0 and at the positive input 2. -/
theorem mw_to_dbm_total_guarded_witness :
    mw_to_dbm (fun x => x) 0 = 0
    ∧ ((0 : ℚ) < 2 ∧ mw_to_dbm (fun x => x) 2 = 10 * (fun (x : ℚ) => x) 2) :=
  ⟨(mw_to_dbm_total_guarded (fun x => x) (fun x => x + 1) 2).1,
   by norm_num,
   (mw_to_dbm_total_guarded (fun x => x) (fun x => x + 1) 2).2.2 (by norm_num)⟩

/-- C4 counterexample: a one-port request (port 1, enabled, transceiver
present in the status) whose telemetry RPC raises the unsupported
condition produces an empty report — zero output lines for one requested
port, not one basic status line per port as claimed. -/
theorem get_detail_status_unsupported_cex :
    get_detail_status (fun x => x) false [(1, 10000)] [(1, examplePortStatus)]
        (Except.error ()) = some []
    ∧ ([(1, examplePortStatus)] : List (Nat × PortStatus)).length = 1 := by
  exact ⟨by decide, rfl⟩

/-- C4 amended: when the transceiver-telemetry RPC raises
TApplicationException, get_detail_status returns immediately: whenever
the command completes it has printed nothing at all, for every status
response. -/
theorem get_detail_status_unsupported_prints_nothing (log10 : ℚ → ℚ)
    (verbose : Bool) (speeds : List (Nat × Int))
    (statusResp : List (Nat × PortStatus)) (ls : List Line)
    (h : get_detail_status log10 verbose speeds statusResp (Except.error ()) = some ls) :
    ls = [] := by
  unfold get_detail_status at h
  dsimp only [] at h
  cases hb : build_channel_maps speeds (sortBy (fun a b => Nat.ble a.1 b.1) statusResp) with
  | none =>
      rw [hb] at h
      simp at h
  | some maps =>
      rw [hb] at h
      simp at h
      exact h

/-- C4 witness: the amended theorem applied to the empty status
response. -/
theorem get_detail_status_unsupported_prints_nothing_witness :
    get_detail_status (fun x => x) false [] [] (Except.error ()) = some []
    ∧ ([] : List Line) = [] :=
  ⟨by decide,
   get_detail_status_unsupported_prints_nothing (fun x => x) false [] [] [] (by decide)⟩

/-- C7: the placeholder for a transceiver with no telemetry record is
synthesized with presence false, but the source stores it under the PORT
key (port 1 here) instead of the transceiver id (0 here); the subsequent
transceiver-id lookup finds nothing, and the whole detailed report dies
with a KeyError (none) instead of printing one line per served port. -/
theorem get_dummy_status_keyed_by_port_crashes_report :
    get_dummy_status [(1, examplePortStatus)] [] = [(1, mkDummyInfo 1)]
    ∧ (mkDummyInfo 1).present = false
    ∧ pyLookup (get_dummy_status [(1, examplePortStatus)] []) 0 = none
    ∧ get_detail_status (fun x => x) false [(1, 10000)] [(1, examplePortStatus)]
        (Except.ok []) = none := by
  exact ⟨by decide, by decide, by decide, by decide⟩

/-- C8: a non-empty explicit channel list in the RPC response is
authoritative — the channel map uses exactly that list and the result
does not depend on the speed table or the port at all — while the
speed-based derivation runs exactly when the explicit list is empty or
absent. -/
theorem channels_used_explicit_authoritative
    (speeds speeds2 : List (Nat × Int)) (port port2 : Nat)
    (idx : TransceiverIdx) (c : Int) (cs : List Int)
    (h : idx.channels = some (c :: cs)) :
    channels_used speeds port idx = some (c :: cs)
    ∧ channels_used speeds port idx = channels_used speeds2 port2 idx
    ∧ ∀ idx2 : TransceiverIdx,
        idx2.channels = none ∨ idx2.channels = some [] →
        channels_used speeds port idx2
          = (pyLookup speeds port).map (fun sp => get_port_channels sp idx2.channelId) := by
  refine ⟨?_, ?_, ?_⟩
  · unfold channels_used
    rw [h]
  · unfold channels_used
    rw [h]
  · intro idx2 h2
    unfold channels_used
    rcases h2 with h2 | h2 <;> rw [h2]

/-- C8 witness: the theorem applied to an explicit two-channel list
(taken verbatim) and, for the fallback clause, to an index with an
absent list. -/
theorem channels_used_explicit_authoritative_witness :
    channels_used [(1, 20000)] 1 ⟨0, 0, some [7, 3]⟩ = some (7 :: [3])
    ∧ channels_used [(1, 20000)] 1 ⟨0, 0, some [7, 3]⟩ = channels_used [] 9 ⟨0, 0, some [7, 3]⟩
    ∧ channels_used [(1, 20000)] 1 ⟨2, 5, none⟩
        = (pyLookup [(1, 20000)] 1).map
            (fun sp => get_port_channels sp (⟨2, 5, none⟩ : TransceiverIdx).channelId) :=
  ⟨(channels_used_explicit_authoritative [(1, 20000)] [] 1 9 ⟨0, 0, some [7, 3]⟩ 7 [3] rfl).1,
   (channels_used_explicit_authoritative [(1, 20000)] [] 1 9 ⟨0, 0, some [7, 3]⟩ 7 [3] rfl).2.1,
   (channels_used_explicit_authoritative [(1, 20000)] [] 1 9 ⟨0, 0, some [7, 3]⟩ 7 [3] rfl).2.2
     ⟨2, 5, none⟩ (Or.inl rfl)⟩

/-- C9: with no ports specified, the details command prints exactly the
ports of the response whose operational state is 1 (link up), silently
omitting every other port, whatever sort key is used; explicitly
requested ports are printed as requested, regardless of any state. -/
theorem port_details_run_selection (le : PortInfo → PortInfo → Bool)
    (ports : List Nat) (resp : List PortInfo) :
    (ports = [] → ∀ pid, pid ∈ port_details_printed le ports resp ↔
        ∃ info, info ∈ resp ∧ info.portId = pid ∧ info.operState = 1)
    ∧ (ports ≠ [] → port_details_printed le ports resp = ports) := by
  constructor
  · intro hp pid
    subst hp
    unfold port_details_printed
    simp only [List.mem_map, List.mem_filter, decide_eq_true_eq]
    constructor
    · rintro ⟨info, ⟨hmem, hop⟩, rfl⟩
      exact ⟨info, (mem_sortBy le info resp).mp hmem, rfl, hop⟩
    · rintro ⟨info, hmem, rfl, hop⟩
      exact ⟨info, ⟨(mem_sortBy le info resp).mpr hmem, hop⟩, rfl⟩
  · intro hp
    cases ports with
    | nil => exact absurd rfl hp
    | cons a as => rfl

/-- C9 witness: the theorem applied to a response with one up and one
down port (only the up port is listed), and to an explicit request for
port 3 against a response where that port is absent. -/
theorem port_details_run_selection_witness :
    (5 ∈ port_details_printed portIdLe [] [⟨5, 1⟩, ⟨6, 0⟩] ↔
      ∃ info, info ∈ ([⟨5, 1⟩, ⟨6, 0⟩] : List PortInfo) ∧ info.portId = 5 ∧ info.operState = 1)
    ∧ port_details_printed portIdLe [3] [⟨5, 1⟩] = [3] :=
  ⟨(port_details_run_selection portIdLe [] [⟨5, 1⟩, ⟨6, 0⟩]).1 rfl 5,
   (port_details_run_selection portIdLe [3] [⟨5, 1⟩]).2 (by decide)⟩
